import Mathlib

/-!
Shallow embedding of `Webpage_Scraping.py`, a crawler that scrapes a
paginated map-gallery site, extracts GIS-related links per gallery entry,
validates each link by substring-matching the fetched page text against
known error phrases, and writes a CSV report.

A gallery-entry record is a Python dict from field names to string values;
we model it as an association list with insert-or-overwrite semantics that
preserves insertion order (matching CPython dict iteration order).
Browser fetches (`driver.get` + `driver.page_source`) are modelled by an
oracle `fetch : String → String` from URL to rendered page text, and URL
well-formedness (`InvalidArgumentException` from `driver.get`) by a
predicate `validURL : String → Bool`.  Each modelled operation also
returns the list of URLs it fetched, so that "no network access" claims
are statable.  Python exceptions that the script does not catch
(`IndexError`, `NoSuchElementException` escaping `totalpages`) are
modelled with `Except String`, the error string naming the exception.
-/

/-- A gallery-entry record: Python dict from field name to string value. -/
abbrev Entry := List (String × String)

/-- Dict lookup: first binding for the key, if any (`d[k]` / `d.get(k)`). -/
def Entry.get (e : Entry) (k : String) : Option String :=
  match e with
  | [] => none
  | (k', v) :: rest => if k' = k then some v else Entry.get rest k

/-- Dict assignment `d[k] = v`: overwrite in place if the key exists,
otherwise append at the end (CPython dict insertion-order semantics). -/
def Entry.insert (e : Entry) (k v : String) : Entry :=
  match e with
  | [] => [(k, v)]
  | (k', v') :: rest =>
      if k' = k then (k, v) :: rest else (k', v') :: Entry.insert rest k v

/-- Dict `d.values()` in iteration order. -/
def Entry.values (e : Entry) : List String := e.map Prod.snd

/-- A key is present in the record. -/
def Entry.hasKey (e : Entry) (k : String) : Bool := (e.get k).isSome

/-- Substring matching on character lists: does the second list start with
the first? (used to model the Python `in` operator on strings). -/
def leadMatch : List Char → List Char → Bool
  | [], _ => true
  | _ :: _, [] => false
  | a :: as, b :: bs => a == b && leadMatch as bs

/-- Does `n` occur as a contiguous run inside the second list? -/
def subMatch (n : List Char) : List Char → Bool
  | [] => n.isEmpty
  | c :: t => leadMatch n (c :: t) || subMatch n t

/-- Python `needle in hay` for strings: substring containment. -/
def strContains (needle hay : String) : Bool :=
  subMatch needle.toList hay.toList

/-- Text before the first occurrence of `sep` in the haystack, paired with
the text after that occurrence; `none` when `sep` does not occur. -/
def splitFirst (sep : List Char) : List Char → Option (List Char × List Char)
  | [] => none
  | c :: rest =>
      if leadMatch sep (c :: rest) then
        some ([], List.drop sep.length (c :: rest))
      else
        match splitFirst sep rest with
        | some (pre, post) => some (c :: pre, post)
        | none => none

/-- All pieces of the haystack around occurrences of `sep`, scanning left
to right without overlap; the fuel (instantiated with the haystack length,
which bounds the number of occurrences of a non-empty separator) keeps the
recursion structural. -/
def splitAll (sep : List Char) : Nat → List Char → List (List Char)
  | 0, hay => [hay]
  | fuel + 1, hay =>
      match splitFirst sep hay with
      | none => [hay]
      | some (pre, post) => pre :: splitAll sep fuel post

/-- Python `s.split(sep)` for a non-empty separator. -/
def pySplit (s sep : String) : List String :=
  (splitAll sep.toList s.toList.length s.toList).map fun cs => String.mk cs

/-- Python `s.split(sep)[idx]` for non-empty `sep`: `none` models an
`IndexError` when the index is out of range. -/
def pySplitGet (s sep : String) (idx : Nat) : Option String :=
  (pySplit s sep)[idx]?

/-- Fields for which links are tested (`link_values`, line 42). -/
def link_values : List String :=
  ["REST_Link", "AGOL_Link", "Metadata_Link", "WFS_Link", "WMS_Link",
   "Iframe_Webmap_Link"]

/-- Common error messages of wrong/broken links (`error_msg`, lines 45-47);
the duplicate final phrase is present in the source. -/
def error_msg : List String :=
  ["Please contact your system administrator.", "Unauthorized", "Not Found",
   "Item does not exist or is inaccessible.",
   "Error occurred while processing request", "Error occurred",
   "Please contact your system administrator."]

/-- Columns of the output CSV (`csv_fields`, lines 49-52). -/
def csv_fields : List String :=
  ["gallery_entry_name", "Gallery_Link", "REST_Link", "AGOL_Link",
   "Metadata_Link", "WFS_Link", "WMS_Link", "Iframe_Webmap_Link",
   "Iframe_Webmap_ID", "PDF_Link_Text", "PDF_Download_LINK",
   "PDF_File_Size", "REST_Link_Status", "AGOL_Link_Status",
   "Metadata_Link_Status", "WFS_Link_Status", "WMS_Link_Status",
   "Iframe_Webmap_Link_Status", "Summary Status"]

/-- Body of the `for id_key in link_values` loop of `checklinks`
(lines 214-232).  Looks up the field; a missing key would be a Python
`KeyError` (modelled as `Except.error`).  If the stored value is the
`"Error"` sentinel, the status is set to `"Error"` with no fetch;
otherwise the URL is fetched and the status is `"Error"` when the page
text contains any phrase of `error_msg`, else `"Active"`.  The second
component of the result lists the URLs fetched by this step. -/
def checklinks_field (fetch : String → String) (e : Entry)
    (id_key : String) : Except String (Entry × List String) :=
  match e.get id_key with
  | none => .error "KeyError"
  | some v =>
      if v = "Error" then
        .ok (e.insert (id_key ++ "_Status") "Error", [])
      else
        let page_text := fetch v
        let valid_link := error_msg.any (fun i => strContains i page_text)
        if valid_link then
          .ok (e.insert (id_key ++ "_Status") "Error", [v])
        else
          .ok (e.insert (id_key ++ "_Status") "Active", [v])

/-- The per-field loop of `checklinks`, run over a list of field names in
order, accumulating the fetched URLs. -/
def checkFields (fetch : String → String) (e : Entry) :
    List String → Except String (Entry × List String)
  | [] => .ok (e, [])
  | id_key :: rest =>
      match checklinks_field fetch e id_key with
      | .error err => .error err
      | .ok (e', fs) =>
          match checkFields fetch e' rest with
          | .error err => .error err
          | .ok (e'', fs') => .ok (e'', fs ++ fs')

/-- The WFS raster special case of `checklinks` (lines 236-245), run once
per gallery entry after the per-field loop.  When the WFS field holds the
`"Error"` sentinel, the URL `str(REST_Link) + "/0"` is fetched; if its
page text contains `"Raster Layer"`, both the WFS link value and its
status become `"NA-Raster"`.  `driver.get` on a malformed URL raises
`InvalidArgumentException`, which the source catches by logging and
setting the WFS status to `"Error"`; `validURL` models which URLs load
without that exception.  Missing keys would be Python `KeyError`s. -/
def wfs_raster_step (fetch : String → String) (validURL : String → Bool)
    (e : Entry) : Except String (Entry × List String) :=
  match e.get "WFS_Link" with
  | none => .error "KeyError"
  | some wfs =>
      if wfs = "Error" then
        match e.get "REST_Link" with
        | none => .error "KeyError"
        | some rest =>
            let url := rest ++ "/0"
            if validURL url then
              if strContains "Raster Layer" (fetch url) then
                .ok (((e.insert "WFS_Link" "NA-Raster").insert
                        "WFS_Link_Status" "NA-Raster"), [url])
              else
                .ok (e, [url])
            else
              .ok (e.insert "WFS_Link_Status" "Error", [])
      else
        .ok (e, [])

/-- `checklinks` restricted to one gallery entry: the per-field loop over
`link_values` followed by the WFS raster special case. -/
def checklinks_entry (fetch : String → String) (validURL : String → Bool)
    (e : Entry) : Except String (Entry × List String) :=
  match checkFields fetch e link_values with
  | .error err => .error err
  | .ok (e₁, fs₁) =>
      match wfs_raster_step fetch validURL e₁ with
      | .error err => .error err
      | .ok (e₂, fs₂) => .ok (e₂, fs₁ ++ fs₂)

/-- `dictsumvalue` restricted to one gallery entry (lines 256-260): adds
the `"Summary Status"` key, `"Error"` when any existing value equals
`"Error"`, else `"No problem"`. -/
def dictsumvalue_entry (e : Entry) : Entry :=
  if e.values.contains "Error" then
    e.insert "Summary Status" "Error"
  else
    e.insert "Summary Status" "No problem"

/-- What `galleryentries` can observe on one loaded gallery-entry page:
for each `find_element` attempt, `some` holds the extracted attribute or
text and `none` models a `NoSuchElementException`.  The three PDF values
come from a single `try` block rooted at one pane, so they succeed or
fail together. -/
structure ScrapedPage where
  url : String
  rest : Option String
  agol : Option String
  metadata : Option String
  wfs : Option String
  wms : Option String
  iframe_src : Option String
  pdf : Option (String × String × String)

/-- One `try/except NoSuchElementException` block of `galleryentries`
assigning a single field: the extracted value when found, else the
`"Error"` sentinel. -/
def tryField (e : Entry) (k : String) (v : Option String) : Entry :=
  match v with
  | some x => e.insert k x
  | none => e.insert k "Error"

/-- The PDF block of `galleryentries` (lines 185-193): either all three
PDF fields are extracted, or a `NoSuchElementException` anywhere in the
block leaves all three set to the `"Error"` sentinel. -/
def scrape_pdf (p : ScrapedPage) (e : Entry) : Entry :=
  match p.pdf with
  | some (t, href, size) =>
      ((e.insert "PDF_Link_Text" t).insert "PDF_Download_Link" href).insert
        "PDF_File_Size" size
  | none =>
      ((e.insert "PDF_Link_Text" "Error").insert "PDF_Download_Link"
        "Error").insert "PDF_File_Size" "Error"

/-- The body of the `galleryentries` loop (lines 130-193) for one page:
builds the record for that gallery entry, keyed by the short name
`webpage.split("/map/")[1]`.  The short-name split and the iframe
`split("webmap=")[1]` are outside any matching `except`, so an
out-of-range index is an uncaught `IndexError`. -/
def scrape_entry (p : ScrapedPage) : Except String (String × Entry) :=
  match pySplitGet p.url "/map/" 1 with
  | none => .error "IndexError"
  | some shortname =>
      let e : Entry := Entry.insert [] "Gallery_Link" p.url
      let e := tryField e "REST_Link" p.rest
      let e := tryField e "AGOL_Link" p.agol
      let e := tryField e "Metadata_Link" p.metadata
      let e := tryField e "WFS_Link" p.wfs
      let e := tryField e "WMS_Link" p.wms
      match p.iframe_src with
      | some src =>
          let webmaplink := (pySplit src "&extent").headD ""
          let e := e.insert "Iframe_Webmap_Link" webmaplink
          match pySplitGet webmaplink "webmap=" 1 with
          | none => .error "IndexError"
          | some id =>
              .ok (shortname, scrape_pdf p (e.insert "Iframe_Webmap_ID" id))
      | none =>
          .ok (shortname,
            scrape_pdf p ((e.insert "Iframe_Webmap_Link" "Error").insert
              "Iframe_Webmap_ID" "Error"))

/-- The whole per-entry pipeline: scrape, validate links, summarise
(`galleryentries` then `checklinks` then `dictsumvalue`). -/
def pipeline_entry (fetch : String → String) (validURL : String → Bool)
    (p : ScrapedPage) : Except String (String × Entry) :=
  match scrape_entry p with
  | .error err => .error err
  | .ok (k, e) =>
      match checklinks_entry fetch validURL e with
      | .error err => .error err
      | .ok (e₁, _) => .ok (k, dictsumvalue_entry e₁)

/-- The record keys `galleryentries` populates for every gallery entry. -/
def scrapeKeys : List String :=
  ["Gallery_Link", "REST_Link", "AGOL_Link", "Metadata_Link", "WFS_Link",
   "WMS_Link", "Iframe_Webmap_Link", "Iframe_Webmap_ID", "PDF_Link_Text",
   "PDF_Download_Link", "PDF_File_Size"]

/-- One CSV cell of the report writer (line 293):
`gallerylinks[k].get(field) or k` — the stored value when present and
truthy (a non-empty string), else the record key. -/
def rowCell (e : Entry) (k field : String) : String :=
  match e.get field with
  | some v => if v = "" then k else v
  | none => k

/-- One CSV row of the report writer: one cell per column of
`csv_fields`, in order. -/
def writeRow (e : Entry) (k : String) : List String :=
  csv_fields.map (rowCell e k)

/-- `totalpages` (lines 85-94): the argument models the result of looking
up the last-page pager control — `some href` when present, `none` for the
uncaught `NoSuchElementException` when absent.  The page-number parameter
is `last_page.split("=")[1]`, an uncaught `IndexError` when there is no
`"="`. -/
def totalpages (lastPageHref : Option String) : Except String String :=
  match lastPageHref with
  | none => .error "NoSuchElementException"
  | some last_page =>
      match pySplitGet last_page "=" 1 with
      | some max_pg => .ok max_pg
      | none => .error "IndexError"

/-- The gallery index base URL (line 265). -/
def baseURL : String :=
  "https://www.cityofsalinas.org/our-government/information-center/map-gallery"

/-- The URL the crawl uses for index page `n`: page 0 is the bare base
URL, later pages carry the `page` query parameter (lines 271-277). -/
def pageURL (n : Nat) : String :=
  if n = 0 then baseURL else baseURL ++ "?page=" ++ toString n

/-- Index pages visited for link collection, in order (lines 267-277):
the base URL, then `?page=1` through `?page=pages` from
`range(1, pages + 1)`. -/
def indexPagesVisited (pages : Nat) : List String :=
  baseURL :: ((List.range' 1 pages).map fun page =>
    baseURL ++ "?page=" ++ toString page)

/-! Concrete sample inputs used to instantiate the theorems. -/

/-- A fetch oracle whose pages never contain an error phrase. -/
def sampleFetch : String → String := fun _ => "fine page"

/-- A URL-validity oracle under which every `driver.get` succeeds. -/
def sampleValid : String → Bool := fun _ => true

/-- A gallery-entry page on which every extraction succeeds. -/
def samplePage : ScrapedPage :=
  { url := "https://city.example/map/parks"
    rest := some "https://city.example/rest"
    agol := some "https://agol.example/item"
    metadata := some "https://city.example/meta"
    wfs := some "https://city.example/wfs"
    wms := some "https://city.example/wms"
    iframe_src := some "https://city.example/if?webmap=abc123&extent=1,2"
    pdf := some ("Parks Map PDF", "https://city.example/parks.pdf", "2 MB") }

/-- The record key the pipeline produces for `samplePage`. -/
def sampleKey : String :=
  ((pipeline_entry sampleFetch sampleValid samplePage).toOption.getD
    ("", [])).1

/-- The record the pipeline produces for `samplePage`. -/
def sampleEntry : Entry :=
  ((pipeline_entry sampleFetch sampleValid samplePage).toOption.getD
    ("", [])).2

/-- A gallery-entry page whose URL does not contain `"/map/"`. -/
def pageNoMapMarker : ScrapedPage :=
  { url := "https://city.example/gallery/parks"
    rest := some "https://city.example/rest"
    agol := none, metadata := none, wfs := none, wms := none
    iframe_src := none, pdf := none }

/-- A gallery-entry page whose iframe `src` lacks `"webmap="`. -/
def pageBadIframe : ScrapedPage :=
  { url := "https://city.example/map/parks"
    rest := none, agol := none, metadata := none, wfs := none, wms := none
    iframe_src := some "https://city.example/embed?foo=1", pdf := none }

/-- A record whose WFS link extraction failed (sentinel `"Error"`). -/
def rasterEntry : Entry :=
  [("Gallery_Link", "https://city.example/map/quarry"),
   ("REST_Link", "https://city.example/rest"),
   ("WFS_Link", "Error")]

/-- A fully checked record whose only non-`"Active"` values are the raster
sentinel: the spec example for the summary reducer. -/
def rasterRecord : Entry :=
  [("Gallery_Link", "https://city.example/map/quarry"),
   ("REST_Link", "https://city.example/rest"),
   ("AGOL_Link", "https://agol.example/item"),
   ("Metadata_Link", "https://city.example/meta"),
   ("WFS_Link", "NA-Raster"),
   ("WMS_Link", "https://city.example/wms"),
   ("Iframe_Webmap_Link", "https://city.example/if?webmap=q"),
   ("Iframe_Webmap_ID", "q"),
   ("PDF_Link_Text", "Quarry PDF"),
   ("PDF_Download_Link", "https://city.example/q.pdf"),
   ("PDF_File_Size", "1 MB"),
   ("REST_Link_Status", "Active"), ("AGOL_Link_Status", "Active"),
   ("Metadata_Link_Status", "Active"), ("WFS_Link_Status", "NA-Raster"),
   ("WMS_Link_Status", "Active"), ("Iframe_Webmap_Link_Status", "Active")]

/-! Basic lemmas about the record operations. -/

@[simp] theorem Entry.get_nil (k : String) : Entry.get [] k = none := rfl

@[simp] theorem Entry.get_insert_self (e : Entry) (k v : String) :
    (e.insert k v).get k = some v := by
  induction e with
  | nil => simp [Entry.insert, Entry.get]
  | cons p rest ih =>
      obtain ⟨k', v'⟩ := p
      by_cases h : k' = k <;> simp [Entry.insert, Entry.get, h, ih]

theorem Entry.get_insert_ne (e : Entry) {k k' : String} (v : String)
    (h : k' ≠ k) : (e.insert k v).get k' = e.get k' := by
  induction e with
  | nil => simp [Entry.insert, Entry.get, Ne.symm h]
  | cons p rest ih =>
      obtain ⟨k₀, v₀⟩ := p
      by_cases h₀ : k₀ = k
      · subst h₀
        simp [Entry.insert, Entry.get, Ne.symm h]
      · simp [Entry.insert, Entry.get, h₀, ih]

theorem Entry.get_insert (e : Entry) (k k' v : String) :
    (e.insert k v).get k' = if k' = k then some v else e.get k' := by
  by_cases h : k' = k
  · subst h; simp
  · simp [h, Entry.get_insert_ne e v h]

@[simp] theorem Entry.hasKey_insert_self (e : Entry) (k v : String) :
    (e.insert k v).hasKey k = true := by
  simp [Entry.hasKey]

theorem Entry.hasKey_insert (e : Entry) (k k' v : String)
    (h : e.hasKey k' = true) : (e.insert k v).hasKey k' = true := by
  by_cases hk : k' = k
  · subst hk; simp [Entry.hasKey]
  · simpa [Entry.hasKey, Entry.get_insert_ne e v hk] using h

theorem tryField_get (e : Entry) (k k' : String) (v : Option String) :
    (tryField e k v).get k' =
      if k' = k then some (v.getD "Error") else e.get k' := by
  cases v <;> simp [tryField, Entry.get_insert]

/-! Shape and preservation lemmas for the pipeline stages. -/

theorem checklinks_field_ok_shape (fetch : String → String) (e : Entry)
    (id_key : String) (e' : Entry) (fs : List String)
    (hok : checklinks_field fetch e id_key = .ok (e', fs)) :
    ∃ st, e' = e.insert (id_key ++ "_Status") st := by
  unfold checklinks_field at hok
  split at hok
  · cases hok
  · split at hok
    · simp only [Except.ok.injEq, Prod.mk.injEq] at hok
      exact ⟨"Error", hok.1.symm⟩
    · simp only [] at hok
      split at hok
      · simp only [Except.ok.injEq, Prod.mk.injEq] at hok
        exact ⟨"Error", hok.1.symm⟩
      · simp only [Except.ok.injEq, Prod.mk.injEq] at hok
        exact ⟨"Active", hok.1.symm⟩

theorem checklinks_field_ok_props (fetch : String → String) (e : Entry)
    (id_key : String) (e' : Entry) (fs : List String)
    (hok : checklinks_field fetch e id_key = .ok (e', fs)) :
    (∀ k, k ≠ id_key ++ "_Status" → e'.get k = e.get k) ∧
    e'.hasKey (id_key ++ "_Status") = true ∧
    (∀ k, e.hasKey k = true → e'.hasKey k = true) := by
  obtain ⟨st, rfl⟩ := checklinks_field_ok_shape fetch e id_key e' fs hok
  exact ⟨fun k hk => Entry.get_insert_ne e st hk,
         Entry.hasKey_insert_self e _ st,
         fun k hk => Entry.hasKey_insert e _ k st hk⟩

theorem checkFields_ok_props (fetch : String → String) (ks : List String) :
    ∀ e e' fs, checkFields fetch e ks = .ok (e', fs) →
      (∀ k, (∀ id ∈ ks, k ≠ id ++ "_Status") → e'.get k = e.get k) ∧
      (∀ k, e.hasKey k = true → e'.hasKey k = true) ∧
      (∀ id ∈ ks, e'.hasKey (id ++ "_Status") = true) := by
  induction ks with
  | nil =>
      intro e e' fs hok
      simp only [checkFields, Except.ok.injEq, Prod.mk.injEq] at hok
      obtain ⟨rfl, rfl⟩ := hok
      exact ⟨fun k _ => rfl, fun k hk => hk,
             fun id h => absurd h (List.not_mem_nil id)⟩
  | cons idk rest ih =>
      intro e e' fs hok
      unfold checkFields at hok
      cases h₁ : checklinks_field fetch e idk with
      | error err => simp [h₁] at hok
      | ok r =>
          obtain ⟨e₁, fs₁⟩ := r
          simp only [h₁] at hok
          cases h₂ : checkFields fetch e₁ rest with
          | error err => simp [h₂] at hok
          | ok q =>
              obtain ⟨e₂, fs₂⟩ := q
              simp only [h₂, Except.ok.injEq, Prod.mk.injEq] at hok
              obtain ⟨rfl, rfl⟩ := hok
              obtain ⟨g₁, s₁, m₁⟩ :=
                checklinks_field_ok_props fetch e idk e₁ fs₁ h₁
              obtain ⟨g₂, m₂, st₂⟩ := ih e₁ e₂ fs₂ h₂
              refine ⟨?_, fun k hk => m₂ k (m₁ k hk), ?_⟩
              · intro k hk
                have hk1 : k ≠ idk ++ "_Status" := hk idk (by simp)
                have hkr : ∀ id ∈ rest, k ≠ id ++ "_Status" :=
                  fun id hid => hk id (by simp [hid])
                rw [g₂ k hkr, g₁ k hk1]
              · intro id hid
                rcases List.mem_cons.mp hid with h | h
                · subst h
                  exact m₂ _ s₁
                · exact st₂ id h

theorem wfs_raster_step_ok_props (fetch : String → String)
    (validURL : String → Bool) (e e' : Entry) (fs : List String)
    (hok : wfs_raster_step fetch validURL e = .ok (e', fs)) :
    (∀ k, e.hasKey k = true → e'.hasKey k = true) ∧
    (∀ k, k ≠ "WFS_Link" → k ≠ "WFS_Link_Status" → e'.get k = e.get k) := by
  unfold wfs_raster_step at hok
  split at hok
  · cases hok
  · split at hok
    · split at hok
      · cases hok
      · simp only [] at hok
        split at hok
        · split at hok
          · simp only [Except.ok.injEq, Prod.mk.injEq] at hok
            obtain ⟨rfl, rfl⟩ := hok
            refine ⟨fun k hk => ?_, fun k hk1 hk2 => ?_⟩
            · exact Entry.hasKey_insert _ _ k _
                (Entry.hasKey_insert e _ k _ hk)
            · rw [Entry.get_insert_ne _ _ hk2, Entry.get_insert_ne e _ hk1]
          · simp only [Except.ok.injEq, Prod.mk.injEq] at hok
            obtain ⟨rfl, rfl⟩ := hok
            exact ⟨fun k hk => hk, fun k _ _ => rfl⟩
        · simp only [Except.ok.injEq, Prod.mk.injEq] at hok
          obtain ⟨rfl, rfl⟩ := hok
          refine ⟨fun k hk => Entry.hasKey_insert e _ k _ hk,
                  fun k _ hk2 => Entry.get_insert_ne e _ hk2⟩
    · simp only [Except.ok.injEq, Prod.mk.injEq] at hok
      obtain ⟨rfl, rfl⟩ := hok
      exact ⟨fun k hk => hk, fun k _ _ => rfl⟩

theorem dictsumvalue_get_ne (e : Entry) (k : String)
    (h : k ≠ "Summary Status") :
    (dictsumvalue_entry e).get k = e.get k := by
  unfold dictsumvalue_entry
  split <;> exact Entry.get_insert_ne e _ h

theorem dictsumvalue_hasKey (e : Entry) (k : String)
    (h : e.hasKey k = true) :
    (dictsumvalue_entry e).hasKey k = true := by
  unfold dictsumvalue_entry
  split <;> exact Entry.hasKey_insert e _ k _ h

theorem dictsumvalue_hasKey_summary (e : Entry) :
    (dictsumvalue_entry e).hasKey "Summary Status" = true := by
  unfold dictsumvalue_entry
  split <;> exact Entry.hasKey_insert_self e _ _

theorem scrape_pdf_get (p : ScrapedPage) (e : Entry) (k : String) :
    (scrape_pdf p e).get k =
      if k = "PDF_File_Size" then
        some ((p.pdf.map fun q => q.2.2).getD "Error")
      else if k = "PDF_Download_Link" then
        some ((p.pdf.map fun q => q.2.1).getD "Error")
      else if k = "PDF_Link_Text" then
        some ((p.pdf.map fun q => q.1).getD "Error")
      else e.get k := by
  cases hpdf : p.pdf with
  | none => simp [scrape_pdf, hpdf, Entry.get_insert]
  | some q =>
      obtain ⟨t, href, size⟩ := q
      simp [scrape_pdf, hpdf, Entry.get_insert]

theorem scrape_entry_ok_hasKey (p : ScrapedPage) (k : String) (e : Entry)
    (hok : scrape_entry p = .ok (k, e)) :
    ∀ f ∈ scrapeKeys, e.hasKey f = true := by
  unfold scrape_entry at hok
  split at hok
  · cases hok
  · simp only [] at hok
    split at hok
    · split at hok
      · cases hok
      · simp only [Except.ok.injEq, Prod.mk.injEq] at hok
        obtain ⟨rfl, rfl⟩ := hok
        intro f hf
        simp only [scrapeKeys] at hf
        fin_cases hf <;>
          simp [Entry.hasKey, scrape_pdf_get, Entry.get_insert, tryField_get]
    · simp only [Except.ok.injEq, Prod.mk.injEq] at hok
      obtain ⟨rfl, rfl⟩ := hok
      intro f hf
      simp only [scrapeKeys] at hf
      fin_cases hf <;>
        simp [Entry.hasKey, scrape_pdf_get, Entry.get_insert, tryField_get]

theorem scrape_entry_no_upper_link (p : ScrapedPage) (k : String)
    (e : Entry) (hok : scrape_entry p = .ok (k, e)) :
    e.get "PDF_Download_LINK" = none := by
  unfold scrape_entry at hok
  split at hok
  · cases hok
  · simp only [] at hok
    split at hok
    · split at hok
      · cases hok
      · simp only [Except.ok.injEq, Prod.mk.injEq] at hok
        obtain ⟨rfl, rfl⟩ := hok
        simp [scrape_pdf_get, Entry.get_insert, tryField_get]
    · simp only [Except.ok.injEq, Prod.mk.injEq] at hok
      obtain ⟨rfl, rfl⟩ := hok
      simp [scrape_pdf_get, Entry.get_insert, tryField_get]

theorem pipeline_entry_ok_props (fetch : String → String)
    (validURL : String → Bool) (p : ScrapedPage) (k : String) (e : Entry)
    (hok : pipeline_entry fetch validURL p = .ok (k, e)) :
    ∃ e₀, scrape_entry p = .ok (k, e₀) ∧
      (∀ f, e₀.hasKey f = true → e.hasKey f = true) ∧
      (∀ id ∈ link_values, e.hasKey (id ++ "_Status") = true) ∧
      e.hasKey "Summary Status" = true ∧
      (∀ f, f ≠ "Summary Status" → f ≠ "WFS_Link" → f ≠ "WFS_Link_Status" →
        (∀ id ∈ link_values, f ≠ id ++ "_Status") →
        e.get f = e₀.get f) := by
  unfold pipeline_entry at hok
  cases h₀ : scrape_entry p with
  | error err => simp [h₀] at hok
  | ok r =>
      obtain ⟨k₀, e₀⟩ := r
      simp only [h₀] at hok
      unfold checklinks_entry at hok
      cases hA : checkFields fetch e₀ link_values with
      | error err => simp [hA] at hok
      | ok rA =>
          obtain ⟨e₁, fs₁⟩ := rA
          simp only [hA] at hok
          cases hB : wfs_raster_step fetch validURL e₁ with
          | error err => simp [hB] at hok
          | ok rB =>
              obtain ⟨e₂, fs₂⟩ := rB
              simp only [hB, Except.ok.injEq, Prod.mk.injEq] at hok
              obtain ⟨rfl, rfl⟩ := hok
              obtain ⟨gA, mA, sA⟩ :=
                checkFields_ok_props fetch link_values e₀ e₁ fs₁ hA
              obtain ⟨mB, gB⟩ :=
                wfs_raster_step_ok_props fetch validURL e₁ e₂ fs₂ hB
              refine ⟨e₀, rfl,
                fun f hf => dictsumvalue_hasKey e₂ f (mB f (mA f hf)),
                fun id hid => dictsumvalue_hasKey e₂ _ (mB _ (sA id hid)),
                dictsumvalue_hasKey_summary e₂, ?_⟩
              intro f h1 h2 h3 h4
              rw [dictsumvalue_get_ne e₂ f h1, gB f h2 h3, gA f h4]

/-! Claim theorems. -/

/-- C1: for every gallery entry and each of the six checkable link fields
whose value is not the absent marker, the link validator fetches the URL
and sets the field's status to `"Error"` exactly when the page text
contains at least one phrase of `error_msg`, and to `"Active"` when it
contains none. -/
theorem checklinks_field_classifies (fetch : String → String) (e : Entry)
    (id_key v : String) (hmem : id_key ∈ link_values)
    (hget : e.get id_key = some v) (hv : v ≠ "Error") :
    checklinks_field fetch e id_key =
      .ok (e.insert (id_key ++ "_Status")
            (if error_msg.any (fun i => strContains i (fetch v)) then
              "Error"
             else "Active"),
           [v]) := by
  unfold checklinks_field
  rw [hget]
  simp only [hv, if_false]
  by_cases h : error_msg.any (fun i => strContains i (fetch v)) <;> simp [h]

/-- C1 witness: a field holding a URL whose page says "Not Found" gets
status `"Error"`, and that URL is fetched. -/
theorem checklinks_field_classifies_witness :
    checklinks_field (fun _ => "page says Not Found here")
        [("REST_Link", "https://city.example/rest")] "REST_Link" =
      .ok ([("REST_Link", "https://city.example/rest"),
            ("REST_Link_Status", "Error")],
           ["https://city.example/rest"]) := by
  rw [checklinks_field_classifies (fun _ => "page says Not Found here")
    [("REST_Link", "https://city.example/rest")] "REST_Link"
    "https://city.example/rest" (by decide) rfl (by decide)]
  rfl

/-- C2: for every gallery entry and each of the six checkable link
fields, when the field carries the absent marker `"Error"`, the status
field is set to `"Error"` and no URL is fetched for that field. -/
theorem absent_marker_error_no_fetch (fetch : String → String) (e : Entry)
    (id_key : String) (hmem : id_key ∈ link_values)
    (hget : e.get id_key = some "Error") :
    checklinks_field fetch e id_key =
      .ok (e.insert (id_key ++ "_Status") "Error", []) := by
  unfold checklinks_field
  rw [hget]
  rfl

/-- C2 witness: an absent WFS link yields status `"Error"` with an empty
fetch list. -/
theorem absent_marker_error_no_fetch_witness :
    checklinks_field (fun _ => "fine page") [("WFS_Link", "Error")]
        "WFS_Link" =
      .ok (Entry.insert [("WFS_Link", "Error")] ("WFS_Link" ++ "_Status")
        "Error", []) :=
  absent_marker_error_no_fetch (fun _ => "fine page")
    [("WFS_Link", "Error")] "WFS_Link" (by decide) rfl

/-- C3: for every gallery entry whose WFS field equals the `"Error"`
sentinel after per-field checking, the validator fetches
`REST_Link ++ "/0"`; when that page contains "Raster Layer" both the WFS
link value and its status become `"NA-Raster"`; when the derived URL is
structurally invalid the condition is handled by setting the WFS status
to `"Error"` (nothing is fetched and no failure propagates). -/
theorem wfs_raster_special_case (fetch : String → String)
    (validURL : String → Bool) (e : Entry) (rest : String)
    (hwfs : e.get "WFS_Link" = some "Error")
    (hrest : e.get "REST_Link" = some rest) :
    (validURL (rest ++ "/0") = true →
      strContains "Raster Layer" (fetch (rest ++ "/0")) = true →
      wfs_raster_step fetch validURL e =
        .ok ((e.insert "WFS_Link" "NA-Raster").insert "WFS_Link_Status"
              "NA-Raster",
             [rest ++ "/0"])) ∧
    (validURL (rest ++ "/0") = true →
      strContains "Raster Layer" (fetch (rest ++ "/0")) = false →
      wfs_raster_step fetch validURL e = .ok (e, [rest ++ "/0"])) ∧
    (validURL (rest ++ "/0") = false →
      wfs_raster_step fetch validURL e =
        .ok (e.insert "WFS_Link_Status" "Error", [])) := by
  unfold wfs_raster_step
  rw [hwfs, hrest]
  refine ⟨fun h1 h2 => ?_, fun h1 h2 => ?_, fun h1 => ?_⟩ <;>
    simp_all

/-- C3 witness: an entry with an absent WFS link whose REST sub-layer 0
page says "Raster Layer" gets both WFS fields overwritten with
`"NA-Raster"`, having fetched exactly the derived URL. -/
theorem wfs_raster_special_case_witness :
    wfs_raster_step (fun _ => "This is a Raster Layer page")
        (fun _ => true) rasterEntry =
      .ok ((rasterEntry.insert "WFS_Link" "NA-Raster").insert
            "WFS_Link_Status" "NA-Raster",
           ["https://city.example/rest" ++ "/0"]) :=
  (wfs_raster_special_case (fun _ => "This is a Raster Layer page")
    (fun _ => true) rasterEntry "https://city.example/rest" rfl rfl).1
    rfl rfl

/-- C4: after the summary reducer runs on a record, the summary status is
`"Error"` exactly when some field or status value of the record equals
the `"Error"` sentinel, and `"No problem"` otherwise. -/
theorem summary_status_iff_error (e : Entry) :
    ((dictsumvalue_entry e).get "Summary Status" =
      some (if e.values.contains "Error" then "Error" else "No problem")) ∧
    (((dictsumvalue_entry e).get "Summary Status" = some "Error") ↔
      "Error" ∈ e.values) := by
  have hbase : (dictsumvalue_entry e).get "Summary Status" =
      some (if e.values.contains "Error" then "Error" else "No problem") := by
    by_cases h : "Error" ∈ e.values
    · have hc : e.values.contains "Error" = true := List.elem_iff.mpr h
      simp [dictsumvalue_entry, hc, h]
    · have hc : e.values.contains "Error" = false :=
        Bool.eq_false_iff.mpr fun hcontra => h (List.elem_iff.mp hcontra)
      simp [dictsumvalue_entry, hc, h]
  refine ⟨hbase, ?_⟩
  rw [hbase]
  by_cases h : "Error" ∈ e.values
  · simp [List.elem_iff.mpr h, h]
  · have hc : e.values.contains "Error" = false :=
      Bool.eq_false_iff.mpr fun hcontra => h (List.elem_iff.mp hcontra)
    simp [hc, h]

/-- C4 witness: the spec example — a record whose only non-Active values
are the raster sentinel `"NA-Raster"` gets summary `"No problem"`. -/
theorem summary_status_iff_error_witness :
    (dictsumvalue_entry rasterRecord).get "Summary Status" =
      some "No problem" := by
  rw [(summary_status_iff_error rasterRecord).1]
  rfl

/-- C7 counterexample: with the last-page control's parameter equal to
`"4"`, `totalpages` returns `"4"` (integer 4), while the crawl then
visits 5 index pages — so the returned value is the last-page parameter,
not the total page count. -/
theorem totalpages_not_page_count :
    totalpages (some (baseURL ++ "?page=4")) = .ok (toString 4) ∧
    (indexPagesVisited 4).length = 5 ∧
    (4 : Nat) ≠ 5 := by
  exact ⟨rfl, rfl, by decide⟩

/-- C7 amended: `totalpages` returns the page-number parameter of the
last-page control's href (the string after its first `"="`); the crawl
then visits that number plus one index pages; when the control is absent
the failure is fatal (an uncaught `NoSuchElementException`), with no
fallback. -/
theorem totalpages_last_page_param (href : String) (n : Nat)
    (hparse : pySplitGet href "=" 1 = some (toString n)) :
    totalpages (some href) = .ok (toString n) ∧
    (indexPagesVisited n).length = n + 1 ∧
    totalpages none = .error "NoSuchElementException" := by
  refine ⟨?_, ?_, rfl⟩
  · have hstep : totalpages (some href) =
        match pySplitGet href "=" 1 with
        | some max_pg => .ok max_pg
        | none => .error "IndexError" := rfl
    rw [hstep, hparse]
  · simp [indexPagesVisited]

/-- C7 witness: the amended claim at a concrete href with parameter 4. -/
theorem totalpages_last_page_param_witness :
    totalpages (some (baseURL ++ "?page=4")) = .ok (toString 4) ∧
    (indexPagesVisited 4).length = 4 + 1 ∧
    totalpages none = .error "NoSuchElementException" :=
  totalpages_last_page_param (baseURL ++ "?page=4") 4 (by decide)

/-- C8: with a last-page parameter of 4 the crawl visits exactly the five
index pages 0 through 4, in order, with no revisits. -/
theorem pagination_visits_pages :
    indexPagesVisited 4 =
      [pageURL 0, pageURL 1, pageURL 2, pageURL 3, pageURL 4] ∧
    (indexPagesVisited 4).length = 5 ∧
    (indexPagesVisited 4).Nodup := by
  exact ⟨by decide, rfl, by decide⟩

/-- C9: for every record, key and output column, the report writer emits
the stored field value when it is present and truthy (non-empty), and the
record's key when the field is absent or falsy (empty). -/
theorem report_row_fallback (e : Entry) (k field : String)
    (hmem : field ∈ csv_fields) :
    (∀ v, e.get field = some v → v ≠ "" → rowCell e k field = v) ∧
    (e.get field = none → rowCell e k field = k) ∧
    (e.get field = some "" → rowCell e k field = k) := by
  refine ⟨fun v hv hne => ?_, fun h => ?_, fun h => ?_⟩ <;>
    simp [rowCell, *]

/-- C9 witness: the spec example — key "downtown-parking" with an absent
`PDF_Link_Text` field emits "downtown-parking" in that cell. -/
theorem report_row_fallback_witness :
    rowCell [("Gallery_Link", "https://city.example/map/downtown-parking")]
      "downtown-parking" "PDF_Link_Text" = "downtown-parking" :=
  (report_row_fallback
    [("Gallery_Link", "https://city.example/map/downtown-parking")]
    "downtown-parking" "PDF_Link_Text" (by decide)).2.1 rfl

/-- C10: the entry scraper is not total off its implicit precondition:
an entry URL without `"/map/"`, or an iframe `src` without `"webmap="`,
makes `galleryentries` raise an uncaught `IndexError` rather than record
an absent marker, while a page satisfying the precondition succeeds. -/
theorem scrape_entry_index_error :
    scrape_entry pageNoMapMarker = .error "IndexError" ∧
    scrape_entry pageBadIframe = .error "IndexError" ∧
    (scrape_entry samplePage).isOk = true := by
  exact ⟨rfl, rfl, rfl⟩

/-- C5 counterexample: after the full pipeline runs on a page where every
extraction succeeds, the produced record still has no value for the
schema columns "gallery_entry_name" and "PDF_Download_LINK" — so not
every one of the 19 schema fields is defined in the record. -/
theorem record_missing_schema_fields :
    "gallery_entry_name" ∈ csv_fields ∧
    "PDF_Download_LINK" ∈ csv_fields ∧
    pipeline_entry sampleFetch sampleValid samplePage =
      .ok (sampleKey, sampleEntry) ∧
    sampleEntry.get "gallery_entry_name" = none ∧
    sampleEntry.get "PDF_Download_LINK" = none := by
  exact ⟨by decide, by decide, rfl, rfl, rfl⟩

/-- C5 amended: after the full pipeline runs, every schema column of the
output except "gallery_entry_name" and "PDF_Download_LINK" has a defined
value in the record (those two are never record keys — the entry name is
the dict key and the PDF URL is stored under "PDF_Download_Link" — and
are filled in the CSV by the writer's key fallback). -/
theorem pipeline_defines_output_fields (fetch : String → String)
    (validURL : String → Bool) (p : ScrapedPage) (k : String) (e : Entry)
    (hok : pipeline_entry fetch validURL p = .ok (k, e))
    (f : String) (hf : f ∈ csv_fields)
    (h1 : f ≠ "gallery_entry_name") (h2 : f ≠ "PDF_Download_LINK") :
    e.hasKey f = true := by
  obtain ⟨e₀, h₀, mono, hstat, hsum, _⟩ :=
    pipeline_entry_ok_props fetch validURL p k e hok
  have hkeys : ∀ g ∈ scrapeKeys, e.hasKey g = true := fun g hg =>
    mono g (scrape_entry_ok_hasKey p k e₀ h₀ g hg)
  simp only [csv_fields] at hf
  fin_cases hf
  · exact absurd rfl h1
  · exact hkeys "Gallery_Link" (by decide)
  · exact hkeys "REST_Link" (by decide)
  · exact hkeys "AGOL_Link" (by decide)
  · exact hkeys "Metadata_Link" (by decide)
  · exact hkeys "WFS_Link" (by decide)
  · exact hkeys "WMS_Link" (by decide)
  · exact hkeys "Iframe_Webmap_Link" (by decide)
  · exact hkeys "Iframe_Webmap_ID" (by decide)
  · exact hkeys "PDF_Link_Text" (by decide)
  · exact absurd rfl h2
  · exact hkeys "PDF_File_Size" (by decide)
  · exact hstat "REST_Link" (by decide)
  · exact hstat "AGOL_Link" (by decide)
  · exact hstat "Metadata_Link" (by decide)
  · exact hstat "WFS_Link" (by decide)
  · exact hstat "WMS_Link" (by decide)
  · exact hstat "Iframe_Webmap_Link" (by decide)
  · exact hsum

/-- C5 witness: the amended claim at the sample pipeline run and the
column "WFS_Link". -/
theorem pipeline_defines_output_fields_witness :
    Entry.hasKey sampleEntry "WFS_Link" = true :=
  pipeline_defines_output_fields sampleFetch sampleValid samplePage
    sampleKey sampleEntry rfl "WFS_Link" (by decide) (by decide) (by decide)

/-- C6: for every record the pipeline produces, the CSV cell of the
column "PDF_Download_LINK" equals the record's key, even when a PDF
download URL was extracted — extraction stores it under the
differently-spelled key "PDF_Download_Link", which the column lookup
never reads. -/
theorem pdf_download_cell_is_key (fetch : String → String)
    (validURL : String → Bool) (p : ScrapedPage) (k : String) (e : Entry)
    (hok : pipeline_entry fetch validURL p = .ok (k, e)) :
    rowCell e k "PDF_Download_LINK" = k := by
  obtain ⟨e₀, h₀, _, _, _, gpres⟩ :=
    pipeline_entry_ok_props fetch validURL p k e hok
  have hnone : e.get "PDF_Download_LINK" = none := by
    rw [gpres "PDF_Download_LINK" (by decide) (by decide) (by decide)
        (by decide)]
    exact scrape_entry_no_upper_link p k e₀ h₀
  simp [rowCell, hnone]

/-- C6 witness: the sample run extracts a PDF download URL, yet the
"PDF_Download_LINK" cell still equals the record key. -/
theorem pdf_download_cell_is_key_witness :
    rowCell sampleEntry sampleKey "PDF_Download_LINK" = sampleKey :=
  pdf_download_cell_is_key sampleFetch sampleValid samplePage sampleKey
    sampleEntry rfl
